import Mathlib

/-
Shallow embedding of the flickr repository (Layr-Labs/flickr) for checking
its natural-language specification.

Embedded source files:
  * internal/ref/ref.go            (Digest32ToSha256String, BuildReference)
  * internal/controller Execute     (release resolution, error classification,
                                     artifact selection, docker pull/run)
  * internal/eth/rm_client.go       (signing callback of PublishMetadataURI
                                     and PushRelease)
  * internal/signer (keystore.go, ecdsa signer: SignMessage delegation)

Go strings are modelled as Lean String; Go byte slices as List Nat with
each element < 256; Go maps as association lists or lookup functions;
external collaborators (the ledger RPC transport, the docker runtime and
go-ethereum's crypto primitives) as explicit function parameters.
-/

namespace Flickr

/-! ### Go standard-library string helpers

`beginsWith s p` models Go `strings.HasPrefix(s, p)` on the character
lists; `hasSubstr p s` models Go `strings.Contains(s, p)`. -/

def beginsWith : List Char → List Char → Bool
  | _, [] => true
  | [], _ :: _ => false
  | c :: s, d :: p => c == d && beginsWith s p

def hasSubstr (pat : List Char) : List Char → Bool
  | [] => beginsWith [] pat
  | c :: t => beginsWith (c :: t) pat || hasSubstr pat t

def goContains (s pat : String) : Bool :=
  hasSubstr pat.data s.data

def goStartsWith (s pat : String) : Bool :=
  beginsWith s.data pat.data

/-! ### internal/ref/ref.go -/

/-- One nibble (0..15) to a character, using the lowercase hex alphabet
exactly as Go's encoding/hex does. -/
def hexDigitChar (n : Nat) : Char :=
  if n < 10 then Char.ofNat (48 + n) else Char.ofNat (97 + (n - 10))

/-- One byte to its two hex characters (high nibble first), as in Go's
encoding/hex. -/
def byteToHexChars (b : Nat) : List Char :=
  [hexDigitChar (b / 16), hexDigitChar (b % 16)]

/-- Go `hex.EncodeToString` over a byte slice. -/
def hexEncodeToString (bs : List Nat) : String :=
  ⟨(bs.map byteToHexChars).flatten⟩

/-- Go `strings.ToLower` restricted to ASCII, which is all the call site in
ref.go ever sees (hex.EncodeToString output is ASCII). -/
def toLowerAsciiChar (c : Char) : Char :=
  if 65 ≤ c.toNat ∧ c.toNat ≤ 90 then Char.ofNat (c.toNat + 32) else c

def stringToLower (s : String) : String :=
  ⟨s.data.map toLowerAsciiChar⟩

/-- ref.go: `Digest32ToSha256String(d [32]byte) string` returns
`"sha256:" + strings.ToLower(hex.EncodeToString(d[:]))`. -/
def Digest32ToSha256String (d : List Nat) : String :=
  "sha256:" ++ stringToLower (hexEncodeToString d)

/-- ref.go: `BuildReference(registry, digest string) (string, error)`. -/
def BuildReference (registry digest : String) : Except String String :=
  if registry = "" then .error "empty registry"
  else if goContains registry "@sha256:" then .ok registry
  else if ¬ goStartsWith digest "sha256:" then .error "invalid digest format"
  else .ok (registry ++ "@" ++ digest)

/-! ### internal/controller: data model

`Address` models go-ethereum's `common.Address`, observed only through its
`Hex()` rendering, which is all the controller uses. -/

structure Address where
  hex : String
  deriving DecidableEq

structure Artifact where
  Registry : String
  Digest32 : List Nat
  deriving DecidableEq

structure Release where
  Artifacts : List Artifact
  UpgradeByTime : Nat
  deriving DecidableEq

/-- The `eth.ReleaseManagerClient` interface: `GetLatestRelease` yields a
release and its id, `GetRelease` a release for a requested id.  Both are
modelled as oracles (arbitrary functions), failure as `Except.error` of the
Go error's text. -/
structure RMClient where
  GetLatestRelease : Address → Nat → Except String (Release × Nat)
  GetRelease : Address → Nat → Nat → Except String Release

/-- controller.RunConfig (the AVS address, operator-set id, optional release
id, container name, detach flag, env overrides and override command). -/
structure RunConfig where
  AVS : Address
  OperatorSetID : Nat
  ReleaseID : Option Nat
  Name : String
  Detached : Bool
  Env : List (String × String)
  Cmd : List String

/-- docker.RunOptions as passed to `Docker.Run`; `Env` is the merged
environment, read as a map lookup. -/
structure RunOptions where
  Name : String
  Detached : Bool
  Env : String → Option String
  Cmd : List String

/-- Observation of the docker runtime: the references pulled and the
reference/options pairs run, in order. -/
structure DockerTrace where
  pulls : List String
  runs : List (String × RunOptions)

/-- Lookup in a Go map modelled as an association list. -/
def envLookup (env : List (String × String)) (k : String) : Option String :=
  match env.find? (fun p => p.1 == k) with
  | some p => some p.2
  | none => none

/-- The four always-injected environment entries built in Execute:
AVS_ADDRESS, OPERATOR_SET_ID, RELEASE_ID, UPGRADE_BY_TIME. -/
def baseEnv (cfg : RunConfig) (relID upgradeBy : Nat) : List (String × String) :=
  [("AVS_ADDRESS", cfg.AVS.hex),
   ("OPERATOR_SET_ID", toString cfg.OperatorSetID),
   ("RELEASE_ID", toString relID),
   ("UPGRADE_BY_TIME", toString upgradeBy)]

/-- The environment map after `for k, v := range cfg.Env { env[k] = v }`:
a caller-supplied entry wins, otherwise the injected entry. -/
def mergedEnv (cfg : RunConfig) (relID upgradeBy : Nat) : String → Option String :=
  fun k =>
    match envLookup cfg.Env k with
    | some v => some v
    | none => envLookup (baseEnv cfg relID upgradeBy) k

/-- The remediation message Execute returns when GetLatestRelease fails with
an arithmetic-underflow or NoReleases pattern (raw string from the source,
with the AVS address and operator-set id formatted in). -/
def noReleasesAvailableMsg (cfg : RunConfig) : String :=
  "no releases available for this operator set\n\nTo push a release, run:\n  flickr push --image <your-image>\n\nCurrent configuration:\n  AVS: " ++
    cfg.AVS.hex ++ "\n  Operator Set: " ++ toString cfg.OperatorSetID

/-- The message Execute returns when GetLatestRelease fails with an
array out-of-bounds pattern. -/
def noReleasesFoundMsg : String :=
  "no releases found (the operator set may not have any releases yet)\n\nTo push a release, run:\n  flickr push --image <your-image>"

/-- Step 1 of Controller.Execute: resolve the release (latest when
`cfg.ReleaseID` is nil, else the specific id), classifying errors by
substring match exactly as the source does. -/
def execResolve (rm : RMClient) (cfg : RunConfig) : Except String (Release × Nat) :=
  match cfg.ReleaseID with
  | none =>
    match rm.GetLatestRelease cfg.AVS cfg.OperatorSetID with
    | .error e =>
      if goContains e "arithmetic underflow" || goContains e "NoReleases" then
        .error (noReleasesAvailableMsg cfg)
      else if goContains e "array out-of-bounds" then
        .error noReleasesFoundMsg
      else
        .error ("failed to get latest release: " ++ e)
    | .ok (rel, relID) => .ok (rel, relID)
  | some rid =>
    match rm.GetRelease cfg.AVS cfg.OperatorSetID rid with
    | .error e =>
      if goContains e "array out-of-bounds" then
        .error ("release ID " ++ toString rid ++ " does not exist")
      else
        .error ("failed to get release " ++ toString rid ++ ": " ++ e)
    | .ok rel => .ok (rel, rid)

/-- Steps 2-5 of Controller.Execute after the release is resolved:
validate artifact presence, take the first artifact, build the reference,
docker pull, docker run.  `dockerPull`/`dockerRun` return `some errText` on
failure, `none` on success; the returned `DockerTrace` records the calls
made. -/
def execAfter (dockerPull : String → Option String)
    (dockerRun : String → RunOptions → Option String)
    (cfg : RunConfig) (rel : Release) (relID : Nat) : DockerTrace × Option String :=
  match rel.Artifacts with
  | [] => (⟨[], []⟩, some "no artifacts in release")
  | art :: _ =>
    let digest := Digest32ToSha256String art.Digest32
    match BuildReference art.Registry digest with
    | .error e => (⟨[], []⟩, some ("failed to build reference: " ++ e))
    | .ok reference =>
      match dockerPull reference with
      | some e => (⟨[reference], []⟩, some ("failed to pull image: " ++ e))
      | none =>
        let opts : RunOptions :=
          ⟨cfg.Name, cfg.Detached, mergedEnv cfg relID rel.UpgradeByTime, cfg.Cmd⟩
        match dockerRun reference opts with
        | some e =>
          (⟨[reference], [(reference, opts)]⟩, some ("failed to run container: " ++ e))
        | none => (⟨[reference], [(reference, opts)]⟩, none)

/-- controller.Controller.Execute, returning the docker-call trace and the
error (`none` means success). -/
def Execute (rm : RMClient) (dockerPull : String → Option String)
    (dockerRun : String → RunOptions → Option String)
    (cfg : RunConfig) : DockerTrace × Option String :=
  match execResolve rm cfg with
  | .error e => (⟨[], []⟩, some e)
  | .ok (rel, relID) => execAfter dockerPull dockerRun cfg rel relID

/-- The release resolution underlying an Execute run: either the latest
release was requested and the client returned `(rel, relID)`, or the id
`relID` was requested and the client returned `rel`. -/
def resolvesTo (rm : RMClient) (cfg : RunConfig) (rel : Release) (relID : Nat) : Prop :=
  (cfg.ReleaseID = none ∧
    rm.GetLatestRelease cfg.AVS cfg.OperatorSetID = .ok (rel, relID)) ∨
  (cfg.ReleaseID = some relID ∧
    rm.GetRelease cfg.AVS cfg.OperatorSetID relID = .ok rel)

/-! ### internal/eth/rm_client.go: the signing callback of the write ops

`SignerModel` models the `signer.Signer` capability as the transaction
construction layer sees it: an address and a `SignTransaction` oracle.
Transactions are an opaque type parameter `Tx`, chain ids are `Nat`. -/

structure SignerModel (Tx : Type) where
  Address : Address
  SignTransaction : Tx → Nat → Except String Tx

/-- The `Signer:` closure installed into `bind.TransactOpts` by
`Client.PublishMetadataURI` (rm_client.go lines 205-212): reject any address
other than the attached signer's own, otherwise delegate to the signer. -/
def publishMetadataURISignerCallback {Tx : Type} (sgn : SignerModel Tx)
    (chainID : Nat) (address : Address) (tx : Tx) : Except String Tx :=
  if address ≠ sgn.Address then .error "unexpected signer address"
  else sgn.SignTransaction tx chainID

/-- The `Signer:` closure installed into `bind.TransactOpts` by
`Client.PushRelease` (rm_client.go lines 259-266); textually the same check
as in PublishMetadataURI. -/
def pushReleaseSignerCallback {Tx : Type} (sgn : SignerModel Tx)
    (chainID : Nat) (address : Address) (tx : Tx) : Except String Tx :=
  if address ≠ sgn.Address then .error "unexpected signer address"
  else sgn.SignTransaction tx chainID

/-! ### internal/signer: SignMessage of the two credential backends

The go-ethereum primitives used by `SignMessage` (`accounts.TextHash` and
`crypto.Sign`) are external to this repository and are modelled as an
explicit bundle of oracles over an opaque private-key type. -/

structure EthCryptoOps (Key : Type) where
  TextHash : List Nat → List Nat
  Sign : List Nat → Key → Except String (List Nat)

structure ECDSASigner (Key : Type) where
  privateKey : Key
  address : Address

structure KeystoreSigner (Key : Type) where
  privateKey : Key
  address : Address

/-- ECDSASigner.SignMessage: hash the message with the EIP-191 prefix, sign
the hash, then lift the recovery byte (index 64) from 0/1 to 27/28.
go-ethereum's `crypto.Sign` always returns 65 bytes, so the guard on the
signature length is always satisfied at the call site. -/
def ECDSASigner.SignMessage {Key : Type} (C : EthCryptoOps Key)
    (s : ECDSASigner Key) (msg : List Nat) : Except String (List Nat) :=
  let prefixedMsg := C.TextHash msg
  match C.Sign prefixedMsg s.privateKey with
  | .error e => .error ("failed to sign message: " ++ e)
  | .ok sig =>
    .ok (match sig.get? 64 with
         | some v => if v < 27 then sig.set 64 (v + 27) else sig
         | none => sig)

/-- KeystoreSigner.SignMessage: build an ECDSASigner over the same key
material and delegate (keystore.go lines 56-63). -/
def KeystoreSigner.SignMessage {Key : Type} (C : EthCryptoOps Key)
    (s : KeystoreSigner Key) (msg : List Nat) : Except String (List Nat) :=
  ECDSASigner.SignMessage C ⟨s.privateKey, s.address⟩ msg

/-! ### basic lemmas about the string helpers -/

theorem beginsWith_append (p t : List Char) : beginsWith (p ++ t) p = true := by
  induction p with
  | nil => simp [beginsWith]
  | cons c s ih => simp [beginsWith, ih]

theorem hasSubstr_of_beginsWith (p s : List Char) (h : beginsWith s p = true) :
    hasSubstr p s = true := by
  cases s with
  | nil => simpa [hasSubstr] using h
  | cons c t => simp [hasSubstr, h]

theorem hasSubstr_of_append (a p c : List Char) :
    hasSubstr p (a ++ (p ++ c)) = true := by
  induction a with
  | nil =>
    simp only [List.nil_append]
    exact hasSubstr_of_beginsWith p (p ++ c) (beginsWith_append p c)
  | cons x xs ih =>
    simp only [List.cons_append]
    simp [hasSubstr, ih]

theorem data_append (s t : String) : (s ++ t).data = s.data ++ t.data := rfl

theorem hasSubstr_nil_pat (s : List Char) : hasSubstr [] s = true := by
  cases s <;> simp [hasSubstr, beginsWith]

theorem beginsWith_extend (p : List Char) :
    ∀ s t, beginsWith s p = true → beginsWith (s ++ t) p = true := by
  induction p with
  | nil => intro s t _; cases s ++ t <;> simp [beginsWith]
  | cons d p ih =>
    intro s t h
    cases s with
    | nil => simp [beginsWith] at h
    | cons c s =>
      simp only [beginsWith, Bool.and_eq_true] at h
      simp [beginsWith, h.1, ih s t h.2]

theorem hasSubstr_append_right (p s t : List Char) (h : hasSubstr p s = true) :
    hasSubstr p (s ++ t) = true := by
  induction s with
  | nil =>
    have hp : p = [] := by
      cases p with
      | nil => rfl
      | cons d q => simp [hasSubstr, beginsWith] at h
    subst hp
    simpa using hasSubstr_nil_pat t
  | cons c s ih =>
    simp only [hasSubstr, Bool.or_eq_true] at h
    rcases h with h | h
    · have hb := beginsWith_extend p (c :: s) t h
      simp only [List.cons_append] at hb
      simp [hasSubstr, hb]
    · simp [hasSubstr, ih h]

theorem hasSubstr_append_left (p s t : List Char) (h : hasSubstr p s = true) :
    hasSubstr p (t ++ s) = true := by
  induction t with
  | nil => simpa using h
  | cons x t ih => simp [hasSubstr, ih]

theorem goContains_append_right (s t pat : String) (h : goContains s pat = true) :
    goContains (s ++ t) pat = true := by
  unfold goContains at *
  rw [data_append]
  exact hasSubstr_append_right pat.data s.data t.data h

theorem goContains_append_self (a s : String) : goContains (a ++ s) s = true := by
  unfold goContains
  rw [data_append]
  have := hasSubstr_of_append a.data s.data []
  simpa using this

theorem goContains_of_middle (a p c : String) :
    goContains (a ++ p ++ c) p = true := by
  unfold goContains
  rw [show (a ++ p ++ c) = a ++ (p ++ c) by rw [String.append_assoc]]
  rw [data_append, data_append]
  exact hasSubstr_of_append a.data p.data c.data

/-! ### lemmas about release resolution -/

theorem execResolve_of_resolvesTo (rm : RMClient) (cfg : RunConfig)
    (rel : Release) (relID : Nat) (h : resolvesTo rm cfg rel relID) :
    execResolve rm cfg = .ok (rel, relID) := by
  rcases h with ⟨hid, hok⟩ | ⟨hid, hok⟩ <;> simp [execResolve, hid, hok]

theorem Execute_of_resolvesTo (rm : RMClient)
    (dockerPull : String → Option String)
    (dockerRun : String → RunOptions → Option String) (cfg : RunConfig)
    (rel : Release) (relID : Nat) (h : resolvesTo rm cfg rel relID) :
    Execute rm dockerPull dockerRun cfg = execAfter dockerPull dockerRun cfg rel relID := by
  simp [Execute, execResolve_of_resolvesTo rm cfg rel relID h]

/-! ### helper lemmas about the hex encoding -/

theorem toLowerAsciiChar_hexDigitChar (n : Nat) (h : n < 16) :
    toLowerAsciiChar (hexDigitChar n) = hexDigitChar n := by
  revert n h
  decide

theorem hexDigitChar_mem_alphabet (n : Nat) (h : n < 16) :
    hexDigitChar n ∈ ("0123456789abcdef").data := by
  revert n h
  decide

theorem map_toLower_byteToHexChars (b : Nat) (hb : b < 256) :
    (byteToHexChars b).map toLowerAsciiChar = byteToHexChars b := by
  have h1 : b / 16 < 16 := by omega
  have h2 : b % 16 < 16 := by omega
  simp [byteToHexChars, toLowerAsciiChar_hexDigitChar _ h1,
    toLowerAsciiChar_hexDigitChar _ h2]

theorem stringToLower_hexEncode (d : List Nat) (hd : ∀ b ∈ d, b < 256) :
    stringToLower (hexEncodeToString d) = hexEncodeToString d := by
  unfold stringToLower hexEncodeToString
  congr 1
  induction d with
  | nil => rfl
  | cons b t ih =>
    simp only [List.map_cons, List.flatten_cons, List.map_append]
    rw [map_toLower_byteToHexChars b (hd b (by simp)),
      ih (fun x hx => hd x (by simp [hx]))]

theorem hexFlatten_length (d : List Nat) :
    ((d.map byteToHexChars).flatten).length = 2 * d.length := by
  induction d with
  | nil => rfl
  | cons b t ih =>
    simp only [List.map_cons, List.flatten_cons, List.length_append, ih,
      List.length_cons, byteToHexChars, List.length_cons, List.length_nil]
    omega

theorem hexFlatten_mem_alphabet (d : List Nat) (hd : ∀ b ∈ d, b < 256) :
    ∀ c ∈ (d.map byteToHexChars).flatten, c ∈ ("0123456789abcdef").data := by
  intro c hc
  rw [List.mem_flatten] at hc
  rcases hc with ⟨l, hl, hcl⟩
  rw [List.mem_map] at hl
  rcases hl with ⟨b, hb, rfl⟩
  have hb256 := hd b hb
  have h1 : b / 16 < 16 := by omega
  have h2 : b % 16 < 16 := by omega
  simp only [byteToHexChars, List.mem_cons, List.not_mem_nil, or_false] at hcl
  rcases hcl with rfl | rfl
  · exact hexDigitChar_mem_alphabet _ h1
  · exact hexDigitChar_mem_alphabet _ h2

/-! ### lemmas about the no-releases guidance message -/

theorem noReleasesMsg_contains_remediation (cfg : RunConfig) :
    goContains (noReleasesAvailableMsg cfg) "flickr push --image <your-image>" = true := by
  unfold noReleasesAvailableMsg
  apply goContains_append_right
  apply goContains_append_right
  apply goContains_append_right
  decide

theorem noReleasesMsg_contains_avs (cfg : RunConfig) :
    goContains (noReleasesAvailableMsg cfg) cfg.AVS.hex = true := by
  unfold noReleasesAvailableMsg
  apply goContains_append_right
  apply goContains_append_right
  exact goContains_append_self _ _

theorem noReleasesMsg_contains_opset (cfg : RunConfig) :
    goContains (noReleasesAvailableMsg cfg) (toString cfg.OperatorSetID) = true := by
  unfold noReleasesAvailableMsg
  exact goContains_append_self _ _

/-! ### the claims -/

/-- C8: for every 32-byte digest d, Digest32ToSha256String d returns a
string of length exactly 71 that starts with "sha256:" and whose remaining
64 characters are the lowercase hexadecimal encoding of d's bytes in order
(byte i occupying positions 2i and 2i+1 of the hex part, high nibble
first, drawn from the lowercase hex alphabet). -/
theorem C8_digestToReferenceString (d : List Nat) (hlen : d.length = 32)
    (hrange : ∀ b ∈ d, b < 256) :
    (Digest32ToSha256String d).length = 71 ∧
    goStartsWith (Digest32ToSha256String d) "sha256:" = true ∧
    (Digest32ToSha256String d).data.drop 7 = (d.map byteToHexChars).flatten ∧
    ((Digest32ToSha256String d).data.drop 7).length = 64 ∧
    ∀ c ∈ (Digest32ToSha256String d).data.drop 7, c ∈ ("0123456789abcdef").data := by
  have hfix : Digest32ToSha256String d = "sha256:" ++ hexEncodeToString d := by
    unfold Digest32ToSha256String
    rw [stringToLower_hexEncode d hrange]
  have hdata : (Digest32ToSha256String d).data =
      "sha256:".data ++ (d.map byteToHexChars).flatten := by
    rw [hfix, data_append]; rfl
  have hdrop : (Digest32ToSha256String d).data.drop 7 = (d.map byteToHexChars).flatten := by
    rw [hdata]
    rfl
  have hflatlen := hexFlatten_length d
  rw [hlen] at hflatlen
  refine ⟨?_, ?_, hdrop, ?_, ?_⟩
  · show (Digest32ToSha256String d).data.length = 71
    rw [hdata, List.length_append, hflatlen]
    rfl
  · unfold goStartsWith
    rw [hdata]
    exact beginsWith_append "sha256:".data _
  · rw [hdrop, hflatlen]
  · rw [hdrop]
    exact hexFlatten_mem_alphabet d hrange

/-- C8 witness: the all-zero 32-byte digest. -/
theorem C8_witness :
    (List.replicate 32 0).length = 32 ∧ (∀ b ∈ List.replicate 32 (0 : Nat), b < 256) ∧
    ((Digest32ToSha256String (List.replicate 32 0)).length = 71 ∧
     goStartsWith (Digest32ToSha256String (List.replicate 32 0)) "sha256:" = true ∧
     (Digest32ToSha256String (List.replicate 32 0)).data.drop 7 =
       ((List.replicate 32 0).map byteToHexChars).flatten ∧
     ((Digest32ToSha256String (List.replicate 32 0)).data.drop 7).length = 64 ∧
     ∀ c ∈ (Digest32ToSha256String (List.replicate 32 0)).data.drop 7,
       c ∈ ("0123456789abcdef").data) :=
  ⟨by decide, by decide,
    C8_digestToReferenceString (List.replicate 32 0) (by decide) (by decide)⟩

/-- C6: whenever the registry already contains "@sha256:", BuildReference
returns the registry unchanged for every digest, including malformed ones:
the digest argument is universally quantified and never inspected. -/
theorem C6_buildReference_passthrough (registry digest : String)
    (h : goContains registry "@sha256:" = true) :
    BuildReference registry digest = .ok registry := by
  have hne : registry ≠ "" := by
    intro he
    subst he
    exact absurd h (by decide)
  simp [BuildReference, hne, h]

/-- C6 witness: a self-qualified registry together with a digest that lacks
the "sha256:" prefix entirely. -/
theorem C6_witness :
    goContains "alpine@sha256:4bcf" "@sha256:" = true ∧
    BuildReference "alpine@sha256:4bcf" "bogus-digest" = .ok "alpine@sha256:4bcf" :=
  ⟨by decide, C6_buildReference_passthrough "alpine@sha256:4bcf" "bogus-digest" (by decide)⟩

/-- C7 counterexample: the empty registry has no embedded "@sha256:"
qualifier and "x" is not prefixed with "sha256:", yet BuildReference fails
with the EmptyRegistry error, not InvalidDigestFormat. -/
theorem C7_counterexample :
    goContains "" "@sha256:" = false ∧
    goStartsWith "x" "sha256:" = false ∧
    BuildReference "" "x" = .error "empty registry" ∧
    BuildReference "" "x" ≠ .error "invalid digest format" :=
  ⟨by decide, by decide, rfl, by intro h; simp [BuildReference] at h⟩

/-- C7 as amended: for every NON-EMPTY registry with no embedded "@sha256:"
qualifier and every digest not prefixed with "sha256:", BuildReference
fails with InvalidDigestFormat. -/
theorem C7_invalidDigestFormat (registry digest : String) (hne : registry ≠ "")
    (hreg : goContains registry "@sha256:" = false)
    (hdig : goStartsWith digest "sha256:" = false) :
    BuildReference registry digest = .error "invalid digest format" := by
  simp [BuildReference, hne, hreg, hdig]

/-- C7 witness: a bare registry and an unprefixed digest. -/
theorem C7_witness :
    ("alpine" : String) ≠ "" ∧
    goContains "alpine" "@sha256:" = false ∧
    goStartsWith "abcd" "sha256:" = false ∧
    BuildReference "alpine" "abcd" = .error "invalid digest format" :=
  ⟨by decide, by decide, by decide,
    C7_invalidDigestFormat "alpine" "abcd" (by decide) (by decide) (by decide)⟩

/-- C9: in both write operations, when the transaction-construction layer
presents the signing callback with an address different from the attached
signer's own, the callback fails with the UnexpectedSignerAddress error.
The conclusion holds for every `SignerModel`, in particular for every
`SignTransaction` oracle, so the signer's signing routine contributes
nothing to the result: no signature is produced. -/
theorem C9_unexpectedSignerAddress {Tx : Type} (sgn : SignerModel Tx)
    (chainID : Nat) (address : Address) (tx : Tx) (h : address ≠ sgn.Address) :
    publishMetadataURISignerCallback sgn chainID address tx =
      .error "unexpected signer address" ∧
    pushReleaseSignerCallback sgn chainID address tx =
      .error "unexpected signer address" := by
  constructor <;>
    simp [publishMetadataURISignerCallback, pushReleaseSignerCallback, h]

/-- C9 witness: a signer at address 0xA asked to sign for 0xB. -/
theorem C9_witness :
    (Address.mk "0xB") ≠ (Address.mk "0xA") ∧
    publishMetadataURISignerCallback
        (⟨⟨"0xA"⟩, fun t _ => .ok t⟩ : SignerModel Nat) 1 ⟨"0xB"⟩ 5 =
      .error "unexpected signer address" ∧
    pushReleaseSignerCallback
        (⟨⟨"0xA"⟩, fun t _ => .ok t⟩ : SignerModel Nat) 1 ⟨"0xB"⟩ 5 =
      .error "unexpected signer address" :=
  ⟨by decide,
    (C9_unexpectedSignerAddress (⟨⟨"0xA"⟩, fun t _ => .ok t⟩ : SignerModel Nat)
      1 ⟨"0xB"⟩ 5 (by decide)).1,
    (C9_unexpectedSignerAddress (⟨⟨"0xA"⟩, fun t _ => .ok t⟩ : SignerModel Nat)
      1 ⟨"0xB"⟩ 5 (by decide)).2⟩

/-- C10: for the same underlying private key, KeystoreSigner.SignMessage
and ECDSASigner.SignMessage agree on every message and every choice of the
external crypto primitives — the keystore variant delegates to the ECDSA
variant, whose result depends only on the key, not the stored address. -/
theorem C10_keystore_signMessage_delegates {Key : Type} (C : EthCryptoOps Key)
    (k : Key) (aKeystore aEcdsa : Address) (msg : List Nat) :
    KeystoreSigner.SignMessage C ⟨k, aKeystore⟩ msg =
      ECDSASigner.SignMessage C ⟨k, aEcdsa⟩ msg := rfl

/-- C3: whenever release resolution succeeds with a release holding zero
artifacts — whatever its UpgradeByTime — Execute fails with the
NoArtifactsInRelease error and the docker trace is empty: neither Pull nor
Run is invoked. -/
theorem C3_noArtifactsInRelease (rm : RMClient)
    (dockerPull : String → Option String)
    (dockerRun : String → RunOptions → Option String) (cfg : RunConfig)
    (rel : Release) (relID : Nat) (hres : resolvesTo rm cfg rel relID)
    (hempty : rel.Artifacts = []) :
    Execute rm dockerPull dockerRun cfg = (⟨[], []⟩, some "no artifacts in release") := by
  rw [Execute_of_resolvesTo rm dockerPull dockerRun cfg rel relID hres]
  simp [execAfter, hempty]

/-- C3 witness: a zero-artifact release with a nonzero UpgradeByTime,
resolved as latest. -/
theorem C3_witness :
    resolvesTo ⟨fun _ _ => .ok (⟨[], 99⟩, 0), fun _ _ _ => .error "unused"⟩
      ⟨⟨"0xA"⟩, 1, none, "c", false, [], []⟩ ⟨[], 99⟩ 0 ∧
    (Release.mk [] 99).Artifacts = [] ∧
    Execute ⟨fun _ _ => .ok (⟨[], 99⟩, 0), fun _ _ _ => .error "unused"⟩
        (fun _ => none) (fun _ _ => none) ⟨⟨"0xA"⟩, 1, none, "c", false, [], []⟩ =
      (⟨[], []⟩, some "no artifacts in release") :=
  ⟨Or.inl ⟨rfl, rfl⟩, rfl,
    C3_noArtifactsInRelease _ (fun _ => none) (fun _ _ => none)
      ⟨⟨"0xA"⟩, 1, none, "c", false, [], []⟩ ⟨[], 99⟩ 0 (Or.inl ⟨rfl, rfl⟩) rfl⟩

theorem execAfter_cons_refs (dockerPull : String → Option String)
    (dockerRun : String → RunOptions → Option String) (cfg : RunConfig)
    (a : Artifact) (rest : List Artifact) (u relID : Nat) (ref : String)
    (href : BuildReference a.Registry (Digest32ToSha256String a.Digest32) = .ok ref) :
    (∀ s ∈ (execAfter dockerPull dockerRun cfg ⟨a :: rest, u⟩ relID).1.pulls, s = ref) ∧
    (∀ p ∈ (execAfter dockerPull dockerRun cfg ⟨a :: rest, u⟩ relID).1.runs, p.1 = ref) := by
  simp only [execAfter, href]
  cases hp : dockerPull ref with
  | some e => simp
  | none =>
    cases hr : dockerRun ref ⟨cfg.Name, cfg.Detached, mergedEnv cfg relID u, cfg.Cmd⟩ with
    | some e => simp
    | none => simp

/-- C4: when the resolved release has two or more artifacts, Execute uses
only the first one: the reference handed to Pull and to Run is the one
built from the first artifact's registry and digest, and the entire
outcome — docker trace included — is unchanged when every artifact after
the first is replaced arbitrarily, so no other artifact's registry or
digest can appear in the runtime calls. -/
theorem C4_firstArtifactOnly (rm₁ rm₂ : RMClient)
    (dockerPull : String → Option String)
    (dockerRun : String → RunOptions → Option String) (cfg : RunConfig)
    (a x₁ x₂ : Artifact) (r₁ r₂ : List Artifact) (u relID : Nat) (ref : String)
    (hres₁ : resolvesTo rm₁ cfg ⟨a :: x₁ :: r₁, u⟩ relID)
    (hres₂ : resolvesTo rm₂ cfg ⟨a :: x₂ :: r₂, u⟩ relID)
    (href : BuildReference a.Registry (Digest32ToSha256String a.Digest32) = .ok ref) :
    Execute rm₁ dockerPull dockerRun cfg = Execute rm₂ dockerPull dockerRun cfg ∧
    (∀ s ∈ (Execute rm₁ dockerPull dockerRun cfg).1.pulls, s = ref) ∧
    (∀ p ∈ (Execute rm₁ dockerPull dockerRun cfg).1.runs, p.1 = ref) := by
  rw [Execute_of_resolvesTo rm₁ dockerPull dockerRun cfg _ relID hres₁,
    Execute_of_resolvesTo rm₂ dockerPull dockerRun cfg _ relID hres₂]
  exact ⟨rfl,
    (execAfter_cons_refs dockerPull dockerRun cfg a (x₁ :: r₁) u relID ref href).1,
    (execAfter_cons_refs dockerPull dockerRun cfg a (x₁ :: r₁) u relID ref href).2⟩

/-- C4 witness: a two-artifact release requested by id 3; the second
artifact differs between the two clients. -/
theorem C4_witness :
    resolvesTo
      ⟨fun _ _ => .error "unused",
       fun _ _ _ => .ok ⟨[⟨"alpine", List.replicate 32 0⟩, ⟨"other1", List.replicate 32 1⟩], 5⟩⟩
      ⟨⟨"0xA"⟩, 1, some 3, "c", false, [], []⟩
      ⟨[⟨"alpine", List.replicate 32 0⟩, ⟨"other1", List.replicate 32 1⟩], 5⟩ 3 ∧
    resolvesTo
      ⟨fun _ _ => .error "unused",
       fun _ _ _ => .ok ⟨[⟨"alpine", List.replicate 32 0⟩, ⟨"other2", List.replicate 32 2⟩], 5⟩⟩
      ⟨⟨"0xA"⟩, 1, some 3, "c", false, [], []⟩
      ⟨[⟨"alpine", List.replicate 32 0⟩, ⟨"other2", List.replicate 32 2⟩], 5⟩ 3 ∧
    BuildReference "alpine" (Digest32ToSha256String (List.replicate 32 0)) =
      .ok "alpine@sha256:0000000000000000000000000000000000000000000000000000000000000000" ∧
    (Execute
        ⟨fun _ _ => .error "unused",
         fun _ _ _ => .ok ⟨[⟨"alpine", List.replicate 32 0⟩, ⟨"other1", List.replicate 32 1⟩], 5⟩⟩
        (fun _ => none) (fun _ _ => none) ⟨⟨"0xA"⟩, 1, some 3, "c", false, [], []⟩ =
      Execute
        ⟨fun _ _ => .error "unused",
         fun _ _ _ => .ok ⟨[⟨"alpine", List.replicate 32 0⟩, ⟨"other2", List.replicate 32 2⟩], 5⟩⟩
        (fun _ => none) (fun _ _ => none) ⟨⟨"0xA"⟩, 1, some 3, "c", false, [], []⟩ ∧
     (∀ s ∈ (Execute
        ⟨fun _ _ => .error "unused",
         fun _ _ _ => .ok ⟨[⟨"alpine", List.replicate 32 0⟩, ⟨"other1", List.replicate 32 1⟩], 5⟩⟩
        (fun _ => none) (fun _ _ => none) ⟨⟨"0xA"⟩, 1, some 3, "c", false, [], []⟩).1.pulls,
        s = "alpine@sha256:0000000000000000000000000000000000000000000000000000000000000000") ∧
     (∀ p ∈ (Execute
        ⟨fun _ _ => .error "unused",
         fun _ _ _ => .ok ⟨[⟨"alpine", List.replicate 32 0⟩, ⟨"other1", List.replicate 32 1⟩], 5⟩⟩
        (fun _ => none) (fun _ _ => none) ⟨⟨"0xA"⟩, 1, some 3, "c", false, [], []⟩).1.runs,
        p.1 = "alpine@sha256:0000000000000000000000000000000000000000000000000000000000000000")) :=
  ⟨Or.inr ⟨rfl, rfl⟩, Or.inr ⟨rfl, rfl⟩, rfl,
    C4_firstArtifactOnly _ _ (fun _ => none) (fun _ _ => none)
      ⟨⟨"0xA"⟩, 1, some 3, "c", false, [], []⟩
      ⟨"alpine", List.replicate 32 0⟩ ⟨"other1", List.replicate 32 1⟩
      ⟨"other2", List.replicate 32 2⟩ [] [] 5 3 _
      (Or.inr ⟨rfl, rfl⟩) (Or.inr ⟨rfl, rfl⟩) rfl⟩

/-! ### lemmas about the merged environment -/

theorem mergedEnv_override (cfg : RunConfig) (relID u : Nat) (k v : String)
    (h : envLookup cfg.Env k = some v) : mergedEnv cfg relID u k = some v := by
  simp [mergedEnv, h]

theorem mergedEnv_avs (cfg : RunConfig) (relID u : Nat)
    (h : envLookup cfg.Env "AVS_ADDRESS" = none) :
    mergedEnv cfg relID u "AVS_ADDRESS" = some cfg.AVS.hex := by
  simp only [mergedEnv, h]
  rfl

theorem mergedEnv_opset (cfg : RunConfig) (relID u : Nat)
    (h : envLookup cfg.Env "OPERATOR_SET_ID" = none) :
    mergedEnv cfg relID u "OPERATOR_SET_ID" = some (toString cfg.OperatorSetID) := by
  simp only [mergedEnv, h]
  rfl

theorem mergedEnv_relid (cfg : RunConfig) (relID u : Nat)
    (h : envLookup cfg.Env "RELEASE_ID" = none) :
    mergedEnv cfg relID u "RELEASE_ID" = some (toString relID) := by
  simp only [mergedEnv, h]
  rfl

theorem mergedEnv_upgrade (cfg : RunConfig) (relID u : Nat)
    (h : envLookup cfg.Env "UPGRADE_BY_TIME" = none) :
    mergedEnv cfg relID u "UPGRADE_BY_TIME" = some (toString u) := by
  simp only [mergedEnv, h]
  rfl

theorem mergedEnv_isSome_of_base (cfg : RunConfig) (relID u : Nat) (k : String)
    (hk : (envLookup (baseEnv cfg relID u) k).isSome = true) :
    (mergedEnv cfg relID u k).isSome = true := by
  unfold mergedEnv
  cases h : envLookup cfg.Env k <;> simp [h, hk]

/-- On a successful Execute the docker trace is exactly one pull and one
run of the same reference, whose options carry the container name, the
detach flag, the merged environment and the override command. -/
theorem Execute_success_shape (rm : RMClient)
    (dockerPull : String → Option String)
    (dockerRun : String → RunOptions → Option String) (cfg : RunConfig)
    (rel : Release) (relID : Nat) (tr : DockerTrace)
    (hres : resolvesTo rm cfg rel relID)
    (hok : Execute rm dockerPull dockerRun cfg = (tr, none)) :
    ∃ ref, tr = ⟨[ref],
      [(ref, ⟨cfg.Name, cfg.Detached, mergedEnv cfg relID rel.UpgradeByTime, cfg.Cmd⟩)]⟩ := by
  rw [Execute_of_resolvesTo rm dockerPull dockerRun cfg rel relID hres] at hok
  cases hart : rel.Artifacts with
  | nil => simp [execAfter, hart] at hok
  | cons a rest =>
    simp only [execAfter, hart] at hok
    cases hbr : BuildReference a.Registry (Digest32ToSha256String a.Digest32) with
    | error e => rw [hbr] at hok; simp at hok
    | ok ref =>
      rw [hbr] at hok
      simp only at hok
      cases hp : dockerPull ref with
      | some e => rw [hp] at hok; simp at hok
      | none =>
        rw [hp] at hok
        simp only at hok
        cases hr : dockerRun ref
            ⟨cfg.Name, cfg.Detached, mergedEnv cfg relID rel.UpgradeByTime, cfg.Cmd⟩ with
        | some e => rw [hr] at hok; simp at hok
        | none =>
          rw [hr] at hok
          simp only [Prod.mk.injEq] at hok
          exact ⟨ref, hok.1.symm⟩

/-- C5: on every successful Execute, the environment handed to the
runtime's Run resolves the four fixed keys (to the operator-set address
hex, the operator-set id, the resolved release id and the release's
upgrade deadline as decimal strings) whenever the caller did not override
them, and a caller-supplied entry for any key — colliding or not — wins. -/
theorem C5_envInjection (rm : RMClient) (dockerPull : String → Option String)
    (dockerRun : String → RunOptions → Option String) (cfg : RunConfig)
    (rel : Release) (relID : Nat) (tr : DockerTrace)
    (hres : resolvesTo rm cfg rel relID)
    (hok : Execute rm dockerPull dockerRun cfg = (tr, none)) :
    ∀ p ∈ tr.runs,
      ((p.2.Env "AVS_ADDRESS").isSome = true ∧
       (p.2.Env "OPERATOR_SET_ID").isSome = true ∧
       (p.2.Env "RELEASE_ID").isSome = true ∧
       (p.2.Env "UPGRADE_BY_TIME").isSome = true) ∧
      (envLookup cfg.Env "AVS_ADDRESS" = none →
        p.2.Env "AVS_ADDRESS" = some cfg.AVS.hex) ∧
      (envLookup cfg.Env "OPERATOR_SET_ID" = none →
        p.2.Env "OPERATOR_SET_ID" = some (toString cfg.OperatorSetID)) ∧
      (envLookup cfg.Env "RELEASE_ID" = none →
        p.2.Env "RELEASE_ID" = some (toString relID)) ∧
      (envLookup cfg.Env "UPGRADE_BY_TIME" = none →
        p.2.Env "UPGRADE_BY_TIME" = some (toString rel.UpgradeByTime)) ∧
      (∀ k v, envLookup cfg.Env k = some v → p.2.Env k = some v) := by
  rcases Execute_success_shape rm dockerPull dockerRun cfg rel relID tr hres hok with
    ⟨ref, rfl⟩
  intro p hp
  simp only [List.mem_singleton] at hp
  subst hp
  refine ⟨⟨?_, ?_, ?_, ?_⟩,
    mergedEnv_avs cfg relID rel.UpgradeByTime,
    mergedEnv_opset cfg relID rel.UpgradeByTime,
    mergedEnv_relid cfg relID rel.UpgradeByTime,
    mergedEnv_upgrade cfg relID rel.UpgradeByTime,
    fun k v h => mergedEnv_override cfg relID rel.UpgradeByTime k v h⟩
  · exact mergedEnv_isSome_of_base cfg relID rel.UpgradeByTime "AVS_ADDRESS" rfl
  · exact mergedEnv_isSome_of_base cfg relID rel.UpgradeByTime "OPERATOR_SET_ID" rfl
  · exact mergedEnv_isSome_of_base cfg relID rel.UpgradeByTime "RELEASE_ID" rfl
  · exact mergedEnv_isSome_of_base cfg relID rel.UpgradeByTime "UPGRADE_BY_TIME" rfl

/-- C1 counterexample: a specific-id request (id 5) whose client failure
text carries the literal NoReleases marker is NOT rewritten into the
NoReleasesAvailable guidance — it is wrapped as a plain
"failed to get release 5" error carrying no remediation text. -/
theorem C1_counterexample :
    goContains "NoReleases" "NoReleases" = true ∧
    (Execute ⟨fun _ _ => .error "unused", fun _ _ _ => .error "NoReleases"⟩
        (fun _ => none) (fun _ _ => none)
        ⟨⟨"0xA"⟩, 1, some 5, "c", false, [], []⟩).2 =
      some "failed to get release 5: NoReleases" ∧
    "failed to get release 5: NoReleases" ≠
      noReleasesAvailableMsg ⟨⟨"0xA"⟩, 1, some 5, "c", false, [], []⟩ ∧
    goContains "failed to get release 5: NoReleases" "flickr push" = false :=
  ⟨by decide, rfl, by decide, by decide⟩

/-- C1 as amended: only when the request is for the LATEST release is a
resolution failure whose text contains the arithmetic-underflow signature
or the literal NoReleases marker rewritten into the NoReleasesAvailable
operator guidance; when a specific release id is requested, such a failure
(unless it also matches the out-of-bounds pattern) is wrapped unchanged as
"failed to get release id". -/
theorem C1_noReleasesRewrite :
    (∀ (rm : RMClient) (dockerPull : String → Option String)
        (dockerRun : String → RunOptions → Option String) (cfg : RunConfig) (e : String),
      cfg.ReleaseID = none →
      rm.GetLatestRelease cfg.AVS cfg.OperatorSetID = .error e →
      (goContains e "arithmetic underflow" || goContains e "NoReleases") = true →
      Execute rm dockerPull dockerRun cfg = (⟨[], []⟩, some (noReleasesAvailableMsg cfg))) ∧
    (∀ (rm : RMClient) (dockerPull : String → Option String)
        (dockerRun : String → RunOptions → Option String) (cfg : RunConfig)
        (e : String) (rid : Nat),
      cfg.ReleaseID = some rid →
      rm.GetRelease cfg.AVS cfg.OperatorSetID rid = .error e →
      (goContains e "arithmetic underflow" || goContains e "NoReleases") = true →
      goContains e "array out-of-bounds" = false →
      Execute rm dockerPull dockerRun cfg =
        (⟨[], []⟩, some ("failed to get release " ++ toString rid ++ ": " ++ e))) := by
  constructor
  · intro rm dockerPull dockerRun cfg e hid herr hpat
    simp [Execute, execResolve, hid, herr, hpat]
  · intro rm dockerPull dockerRun cfg e rid hid herr hpat hoob
    simp [Execute, execResolve, hid, herr, hoob]

/-- C1 witness: an arithmetic-underflow failure on a latest-release request
is rewritten into the guidance; a NoReleases failure on a request for id 9
is wrapped instead. -/
theorem C1_witness :
    ((⟨⟨"0xB"⟩, 2, none, "c", false, [], []⟩ : RunConfig).ReleaseID = none ∧
     (goContains "execution reverted: arithmetic underflow" "arithmetic underflow" ||
       goContains "execution reverted: arithmetic underflow" "NoReleases") = true ∧
     Execute
        ⟨fun _ _ => .error "execution reverted: arithmetic underflow",
         fun _ _ _ => .error "unused"⟩
        (fun _ => none) (fun _ _ => none) ⟨⟨"0xB"⟩, 2, none, "c", false, [], []⟩ =
       (⟨[], []⟩, some (noReleasesAvailableMsg ⟨⟨"0xB"⟩, 2, none, "c", false, [], []⟩))) ∧
    ((goContains "NoReleases" "arithmetic underflow" ||
       goContains "NoReleases" "NoReleases") = true ∧
     goContains "NoReleases" "array out-of-bounds" = false ∧
     Execute ⟨fun _ _ => .error "unused", fun _ _ _ => .error "NoReleases"⟩
        (fun _ => none) (fun _ _ => none) ⟨⟨"0xB"⟩, 2, some 9, "c", false, [], []⟩ =
       (⟨[], []⟩, some ("failed to get release " ++ toString 9 ++ ": " ++ "NoReleases"))) :=
  ⟨⟨rfl, by decide,
    C1_noReleasesRewrite.1 _ (fun _ => none) (fun _ _ => none) _ _ rfl rfl (by decide)⟩,
   ⟨by decide, by decide,
    C1_noReleasesRewrite.2 _ (fun _ => none) (fun _ _ => none) _ _ 9 rfl rfl
      (by decide) (by decide)⟩⟩

/-- C2 counterexample: an empty-artifact release makes Execute fail with
exactly "no artifacts in release": the message carries neither the push
remediation command nor the AVS address nor the operator-set id that were
configured (0xDEAD, 3). -/
theorem C2_counterexample :
    (Execute ⟨fun _ _ => .ok (⟨[], 0⟩, 0), fun _ _ _ => .error "unused"⟩
        (fun _ => none) (fun _ _ => none)
        ⟨⟨"0xDEAD"⟩, 3, none, "c", false, [], []⟩).2 = some "no artifacts in release" ∧
    goContains "no artifacts in release" "flickr push" = false ∧
    goContains "no artifacts in release" "0xDEAD" = false ∧
    goContains "no artifacts in release" "3" = false :=
  ⟨rfl, by decide, by decide, by decide⟩

/-- C2 as amended: the NoReleasesAvailable failure (latest-release path)
does carry the concrete remediation command and echo the operator-set key
(AVS hex and operator-set id); the NoArtifactsInRelease failure, however,
is the bare message "no artifacts in release" with neither. -/
theorem C2_remediationMessages :
    (∀ (rm : RMClient) (dockerPull : String → Option String)
        (dockerRun : String → RunOptions → Option String) (cfg : RunConfig) (e : String),
      cfg.ReleaseID = none →
      rm.GetLatestRelease cfg.AVS cfg.OperatorSetID = .error e →
      (goContains e "arithmetic underflow" || goContains e "NoReleases") = true →
      Execute rm dockerPull dockerRun cfg = (⟨[], []⟩, some (noReleasesAvailableMsg cfg)) ∧
      goContains (noReleasesAvailableMsg cfg) "flickr push --image <your-image>" = true ∧
      goContains (noReleasesAvailableMsg cfg) cfg.AVS.hex = true ∧
      goContains (noReleasesAvailableMsg cfg) (toString cfg.OperatorSetID) = true) ∧
    (∀ (rm : RMClient) (dockerPull : String → Option String)
        (dockerRun : String → RunOptions → Option String) (cfg : RunConfig)
        (rel : Release) (relID : Nat),
      resolvesTo rm cfg rel relID → rel.Artifacts = [] →
      Execute rm dockerPull dockerRun cfg = (⟨[], []⟩, some "no artifacts in release")) := by
  constructor
  · intro rm dockerPull dockerRun cfg e hid herr hpat
    refine ⟨?_, noReleasesMsg_contains_remediation cfg, noReleasesMsg_contains_avs cfg,
      noReleasesMsg_contains_opset cfg⟩
    simp [Execute, execResolve, hid, herr, hpat]
  · intro rm dockerPull dockerRun cfg rel relID hres hempty
    rw [Execute_of_resolvesTo rm dockerPull dockerRun cfg rel relID hres]
    simp [execAfter, hempty]

/-- C2 witness: a NoReleases failure on a latest request (AVS 0xC, operator
set 4), and an empty release resolved at id 2. -/
theorem C2_witness :
    ((⟨⟨"0xC"⟩, 4, none, "c", false, [], []⟩ : RunConfig).ReleaseID = none ∧
     (goContains "NoReleases()" "arithmetic underflow" ||
       goContains "NoReleases()" "NoReleases") = true ∧
     (Execute ⟨fun _ _ => .error "NoReleases()", fun _ _ _ => .error "unused"⟩
        (fun _ => none) (fun _ _ => none) ⟨⟨"0xC"⟩, 4, none, "c", false, [], []⟩ =
       (⟨[], []⟩, some (noReleasesAvailableMsg ⟨⟨"0xC"⟩, 4, none, "c", false, [], []⟩)) ∧
      goContains (noReleasesAvailableMsg ⟨⟨"0xC"⟩, 4, none, "c", false, [], []⟩)
        "flickr push --image <your-image>" = true ∧
      goContains (noReleasesAvailableMsg ⟨⟨"0xC"⟩, 4, none, "c", false, [], []⟩)
        (Address.mk "0xC").hex = true ∧
      goContains (noReleasesAvailableMsg ⟨⟨"0xC"⟩, 4, none, "c", false, [], []⟩)
        (toString 4) = true)) ∧
    (resolvesTo ⟨fun _ _ => .error "unused", fun _ _ _ => .ok ⟨[], 11⟩⟩
       ⟨⟨"0xC"⟩, 4, some 2, "c", false, [], []⟩ ⟨[], 11⟩ 2 ∧
     (Release.mk [] 11).Artifacts = [] ∧
     Execute ⟨fun _ _ => .error "unused", fun _ _ _ => .ok ⟨[], 11⟩⟩
        (fun _ => none) (fun _ _ => none) ⟨⟨"0xC"⟩, 4, some 2, "c", false, [], []⟩ =
       (⟨[], []⟩, some "no artifacts in release")) :=
  ⟨⟨rfl, by decide,
    C2_remediationMessages.1 _ (fun _ => none) (fun _ _ => none) _ _ rfl rfl (by decide)⟩,
   ⟨Or.inr ⟨rfl, rfl⟩, rfl,
    C2_remediationMessages.2 _ (fun _ => none) (fun _ _ => none) _ _ 2
      (Or.inr ⟨rfl, rfl⟩) rfl⟩⟩

/-- C5 witness: a successful latest-release run (release id 7, deadline 5)
whose caller env overrides RELEASE_ID. -/
theorem C5_witness :
    resolvesTo
      ⟨fun _ _ => .ok (⟨[⟨"alpine", List.replicate 32 0⟩], 5⟩, 7), fun _ _ _ => .error "unused"⟩
      ⟨⟨"0xA"⟩, 1, none, "c", false, [("RELEASE_ID", "override")], []⟩
      ⟨[⟨"alpine", List.replicate 32 0⟩], 5⟩ 7 ∧
    Execute
      ⟨fun _ _ => .ok (⟨[⟨"alpine", List.replicate 32 0⟩], 5⟩, 7), fun _ _ _ => .error "unused"⟩
      (fun _ => none) (fun _ _ => none)
      ⟨⟨"0xA"⟩, 1, none, "c", false, [("RELEASE_ID", "override")], []⟩ =
      (⟨["alpine@sha256:0000000000000000000000000000000000000000000000000000000000000000"],
        [("alpine@sha256:0000000000000000000000000000000000000000000000000000000000000000",
          ⟨"c", false,
            mergedEnv ⟨⟨"0xA"⟩, 1, none, "c", false, [("RELEASE_ID", "override")], []⟩ 7 5,
            []⟩)]⟩, none) ∧
    (∀ p ∈ (DockerTrace.mk
        ["alpine@sha256:0000000000000000000000000000000000000000000000000000000000000000"]
        [("alpine@sha256:0000000000000000000000000000000000000000000000000000000000000000",
          ⟨"c", false,
            mergedEnv ⟨⟨"0xA"⟩, 1, none, "c", false, [("RELEASE_ID", "override")], []⟩ 7 5,
            []⟩)]).runs,
      ((p.2.Env "AVS_ADDRESS").isSome = true ∧
       (p.2.Env "OPERATOR_SET_ID").isSome = true ∧
       (p.2.Env "RELEASE_ID").isSome = true ∧
       (p.2.Env "UPGRADE_BY_TIME").isSome = true) ∧
      (envLookup [("RELEASE_ID", "override")] "AVS_ADDRESS" = none →
        p.2.Env "AVS_ADDRESS" = some "0xA") ∧
      (envLookup [("RELEASE_ID", "override")] "OPERATOR_SET_ID" = none →
        p.2.Env "OPERATOR_SET_ID" = some (toString 1)) ∧
      (envLookup [("RELEASE_ID", "override")] "RELEASE_ID" = none →
        p.2.Env "RELEASE_ID" = some (toString 7)) ∧
      (envLookup [("RELEASE_ID", "override")] "UPGRADE_BY_TIME" = none →
        p.2.Env "UPGRADE_BY_TIME" = some (toString 5)) ∧
      (∀ k v, envLookup [("RELEASE_ID", "override")] k = some v → p.2.Env k = some v)) :=
  ⟨Or.inl ⟨rfl, rfl⟩, rfl,
    C5_envInjection
      ⟨fun _ _ => .ok (⟨[⟨"alpine", List.replicate 32 0⟩], 5⟩, 7), fun _ _ _ => .error "unused"⟩
      (fun _ => none) (fun _ _ => none)
      ⟨⟨"0xA"⟩, 1, none, "c", false, [("RELEASE_ID", "override")], []⟩
      ⟨[⟨"alpine", List.replicate 32 0⟩], 5⟩ 7 _ (Or.inl ⟨rfl, rfl⟩) rfl⟩

end Flickr
